import Mathlib

/-!
Shallow embedding of the CAME home-assistant integration
(`came/climate.py` and `came/light.py`).

The two python modules are thin adapters between the pycame vendor
library's device objects and the home-assistant entity contract.  The
embedding below models:

* the vendor enumerations (`THERMO_MODE_*`, `THERMO_SEASON_*`,
  `THERMO_DEHUMIDIFIER_ON`, `LIGHT_STATE_ON`) that the adapters compare
  against — only their distinctness matters to the adapter code, so modes
  and seasons are inductive types; the dehumidifier sub-state is a string
  compared against the `THERMO_DEHUMIDIFIER_ON` constant;
* the home-assistant enumerations (`HVACMode`, `ColorMode`);
* the read-only properties (`hvac_mode`, `hvac_modes`, `brightness`,
  `hs_color`, `color_mode`) as pure functions of a device snapshot;
  python dictionary lookups that can raise `KeyError` are embedded as
  `Option`-valued lookups where `none` is the raising outcome;
* the write operations (`set_temperature`, `set_hvac_mode`, `turn_on`,
  `turn_off`) as the list of vendor-library commands they issue; an
  `apply` function gives the device-side effect of those commands
  (the vendor device stores the commanded values, per the vendor
  library's contract described in the spec);
* python's builtin `round` (banker's rounding, half to even) on the
  non-negative fractions the light module produces.  For every fraction
  the light module rounds, the exact value is never within 1/510 of a
  half except when it is exactly a half, so the float evaluation in
  python rounds identically to this exact rational model.
-/

/-! ## Vendor (pycame) enumerations and device snapshots -/

/-- Vendor thermostat mode enumeration
(`THERMO_MODE_OFF / _AUTO / _JOLLY / _MANUAL` from
`pycame.devices.came_thermo`). -/
inductive ThermoMode where
  | off
  | auto
  | jolly
  | manual
deriving DecidableEq, Repr

/-- Vendor thermostat season enumeration (`THERMO_SEASON_OFF / _WINTER /
_SUMMER`).  The season is read back from the device, so the model keeps an
extra constructor for any value outside the three named constants. -/
inductive ThermoSeason where
  | off
  | winter
  | summer
  | other (code : Nat)
deriving DecidableEq, Repr

/-- Vendor constant the climate adapter compares the dehumidifier
sub-state against (`THERMO_DEHUMIDIFIER_ON`). -/
def THERMO_DEHUMIDIFIER_ON : String := "on"

/-- Snapshot of the pycame thermostat device attributes that
`came/climate.py` reads. -/
structure ThermoDevice where
  state : Bool
  mode : ThermoMode
  season : ThermoSeason
  dehumidifier_state : String
  target_temperature : ℚ
  support_target_humidity : Bool
deriving DecidableEq, Repr

/-! ## Home-assistant enumerations -/

/-- Home-assistant `HVACMode` enumeration (the members relevant to the
climate platform contract). -/
inductive HVACMode where
  | off
  | heat
  | cool
  | heat_cool
  | auto
  | dry
  | fan_only
deriving DecidableEq, Repr

/-- Home-assistant `ColorMode` members used by `came/light.py`. -/
inductive ColorMode where
  | brightness
  | hs
deriving DecidableEq, Repr

/-! ## Climate adapter (`came/climate.py`) -/

/-- The `CAME_MODE_TO_HA` dictionary; `none` models a key that is absent
(`mode in CAME_MODE_TO_HA` is false). -/
def CAME_MODE_TO_HA : ThermoMode → Option HVACMode
  | .off => some .off
  | .auto => some .auto
  | .jolly => some .auto
  | .manual => none

/-- The `CAME_SEASON_TO_HA` dictionary; `none` models a key that is
absent, so that an unguarded `CAME_SEASON_TO_HA[...]` access at `none`
is a raised `KeyError`. -/
def CAME_SEASON_TO_HA : ThermoSeason → Option HVACMode
  | .off => some .off
  | .winter => some .heat
  | .summer => some .cool
  | .other _ => none

/-- `CameClimateEntity.hvac_mode` (climate.py lines 118-132).  `none`
models the `KeyError` raised by the final unguarded dictionary access. -/
def hvac_mode (d : ThermoDevice) : Option HVACMode :=
  if d.state = false then some .off
  else
    match CAME_MODE_TO_HA d.mode with
    | some ha => some ha
    | none =>
      if d.dehumidifier_state = THERMO_DEHUMIDIFIER_ON then some .dry
      else CAME_SEASON_TO_HA d.season

/-- `CameClimateEntity.hvac_modes` (climate.py lines 134-145): the base
list, with DRY appended when the device supports target humidity. -/
def hvac_modes (d : ThermoDevice) : List HVACMode :=
  let operations : List HVACMode := [.off, .auto, .heat, .cool]
  if d.support_target_humidity then operations ++ [.dry] else operations

/-- A `zone_config(...)` call issued by the climate adapter: the vendor
mode argument and the optional vendor season argument. -/
structure ZoneConfigCall where
  mode : ThermoMode
  season : Option ThermoSeason
deriving DecidableEq, Repr

/-- `CameClimateEntity.set_hvac_mode` (climate.py lines 152-169), as the
`zone_config` call it issues.  The DRY branch is an unimplemented TODO in
the source, so DRY falls into the final `else` like every other
unhandled mode. -/
def set_hvac_mode : HVACMode → ZoneConfigCall
  | .off => ⟨.off, none⟩
  | .heat => ⟨.manual, some .winter⟩
  | .cool => ⟨.manual, some .summer⟩
  | _ => ⟨.auto, none⟩

/-- A vendor-library command issued by `CameClimateEntity`. -/
inductive ClimateCmd where
  | setTargetTemperature (t : ℚ)
deriving DecidableEq, Repr

/-- `CameClimateEntity.set_temperature` (climate.py lines 147-150): the
`kwargs` dictionary is modelled by the optional `ATTR_TEMPERATURE`
entry; the result is the list of vendor commands issued. -/
def set_temperature (temperature : Option ℚ) : List ClimateCmd :=
  match temperature with
  | some t => [.setTargetTemperature t]
  | none => []

/-- Device-side effect of the climate commands: the vendor setter stores
the commanded target temperature on the device. -/
def applyClimateCmd (d : ThermoDevice) : ClimateCmd → ThermoDevice
  | .setTargetTemperature t => { d with target_temperature := t }

/-- Effect of a list of climate commands, applied in order. -/
def applyClimateCmds (cmds : List ClimateCmd) (d : ThermoDevice) : ThermoDevice :=
  cmds.foldl applyClimateCmd d

/-! ## Discovery listener (`_setup_entities` / `async_discover_sensor`,
identical in climate.py lines 68-77 and light.py lines 47-56) -/

/-- The adapter entity wrapping one resolved device. -/
structure CameClimateEntity where
  device : ThermoDevice
deriving DecidableEq, Repr

/-- `_setup_entities`: iterate over the identifiers, skip the ones the
manager does not resolve, and append one entity per resolved device
(the python loop `entities = []; for ...: entities.append(...)`). -/
def _setup_entities (manager : String → Option ThermoDevice)
    (dev_ids : List String) : List CameClimateEntity :=
  dev_ids.foldl
    (fun entities dev_id =>
      match manager dev_id with
      | none => entities
      | some device => entities ++ [⟨device⟩])
    []

/-- `async_discover_sensor`: an empty identifier sequence returns without
registering anything; otherwise `async_add_entities` is called exactly
once with the batch built by `_setup_entities`.  The result is the list
of `async_add_entities` calls, each carrying its batch. -/
def async_discover_sensor (manager : String → Option ThermoDevice)
    (dev_ids : List String) : List (List CameClimateEntity) :=
  if dev_ids.isEmpty then []
  else [_setup_entities manager dev_ids]

/-! ## Light adapter (`came/light.py`) -/

/-- Vendor constant `LIGHT_STATE_ON` from `pycame.devices.came_light`. -/
def LIGHT_STATE_ON : Nat := 1

/-- Snapshot of the pycame light device attributes that `came/light.py`
reads.  The vendor device keeps brightness on a 0-100 scale and the
hue/saturation pair as a list of two numbers. -/
structure LightDevice where
  state : Nat
  brightness : Nat
  hs_color : ℚ × ℚ
  support_brightness : Bool
  support_color : Bool
deriving DecidableEq, Repr

/-- Python's builtin `round` on the non-negative fraction `a / b`
(banker's rounding: halves go to the nearest even integer), as the light
module applies it to `value * 100 / 255` and `value * 255 / 100`. -/
def pyRound (a b : Nat) : Nat :=
  let q := a / b
  let r := a % b
  if 2 * r < b then q
  else if b < 2 * r then q + 1
  else if q % 2 = 0 then q else q + 1

/-- The attributes `CameLightEntity.__init__` (light.py lines 62-80)
computes: the supported color-mode set and the active color mode. -/
structure LightAttrs where
  supported_color_modes : Finset ColorMode
  color_mode : Option ColorMode
deriving DecidableEq

/-- `CameLightEntity.__init__` (light.py lines 62-80): start from an
empty set and a `None` mode, add BRIGHTNESS when supported, add HS and
select it when color is supported (otherwise select BRIGHTNESS), and
force BRIGHTNESS into the set when it is still empty. -/
def lightEntityInit (support_brightness support_color : Bool) : LightAttrs := Id.run do
  let mut supported : Finset ColorMode := ∅
  let mut colorMode : Option ColorMode := none
  if support_brightness then
    supported := insert ColorMode.brightness supported
  if support_color then
    supported := insert ColorMode.hs supported
    colorMode := some ColorMode.hs
  else
    colorMode := some ColorMode.brightness
  if supported = ∅ then
    supported := insert ColorMode.brightness supported
  return ⟨supported, colorMode⟩

/-- A vendor-library command issued by `CameLightEntity`. -/
inductive LightCmd where
  | turnOn
  | turnOff
  | setBrightness (value : Nat)
  | setHsColor (color : ℚ × ℚ)
deriving DecidableEq, Repr

/-- `CameLightEntity.turn_on` (light.py lines 87-96): with neither
`ATTR_BRIGHTNESS` nor `ATTR_HS_COLOR` in `kwargs`, a plain
`turn_on` command; otherwise the supplied brightness (rescaled with
`round(value * 100 / 255)`) and the supplied hue/saturation pair are
forwarded independently.  The result is the list of vendor commands. -/
def turn_on (brightness : Option Nat) (hsColor : Option (ℚ × ℚ)) : List LightCmd :=
  if brightness = none ∧ hsColor = none then [.turnOn]
  else
    (match brightness with
     | some value => [.setBrightness (pyRound (value * 100) 255)]
     | none => []) ++
    (match hsColor with
     | some color => [.setHsColor color]
     | none => [])

/-- `CameLightEntity.turn_off` (light.py lines 98-101): the unconditional
off command. -/
def turn_off : List LightCmd := [.turnOff]

/-- Device-side effect of the light commands: the vendor setters store
the commanded values on the device (spec §4.5: the device owns a 0-100
brightness scale and the hue/saturation pair). -/
def applyLightCmd (d : LightDevice) : LightCmd → LightDevice
  | .turnOn => { d with state := LIGHT_STATE_ON }
  | .turnOff => { d with state := 0 }
  | .setBrightness value => { d with brightness := value }
  | .setHsColor color => { d with hs_color := color }

/-- Effect of a list of light commands, applied in order. -/
def applyLightCmds (cmds : List LightCmd) (d : LightDevice) : LightDevice :=
  cmds.foldl applyLightCmd d

/-- `CameLightEntity.brightness` (light.py lines 103-108): `None` when
brightness is unsupported, otherwise `round(device.brightness * 255 / 100)`. -/
def brightness_getter (d : LightDevice) : Option Nat :=
  if d.support_brightness = false then none
  else some (pyRound (d.brightness * 255) 100)

/-- `CameLightEntity.hs_color` (light.py lines 110-115): `None` when
color is unsupported, otherwise the device's reported pair. -/
def hs_color_getter (d : LightDevice) : Option (ℚ × ℚ) :=
  if d.support_color = false then none
  else some d.hs_color

/-- `CameLightEntity.is_on` (light.py lines 82-85). -/
def is_on (d : LightDevice) : Bool :=
  d.state = LIGHT_STATE_ON

/-! ## The C1 claim's derivation, as the claim words it

The claim describes `hvac_mode` as: off state → OFF; else mode auto or
jolly → AUTO; else mode manual with dehumidifier on → DRY; else the
season mapping.  This is formalised separately so it can be compared
with the source's `hvac_mode` above (which also maps the vendor mode
`off` through `CAME_MODE_TO_HA`). -/

/-- The priority derivation exactly as claim C1 (and spec §4.2) words
it, for comparison with `hvac_mode`. -/
def hvacModeClaimed (d : ThermoDevice) : Option HVACMode :=
  if d.state = false then some .off
  else if d.mode = .auto ∨ d.mode = .jolly then some .auto
  else if d.mode = .manual ∧ d.dehumidifier_state = THERMO_DEHUMIDIFIER_ON then some .dry
  else CAME_SEASON_TO_HA d.season

/-! ## Helper lemmas -/

/-- The `_setup_entities` loop, started from any accumulator, appends one
entity per resolved identifier in order. -/
theorem setup_entities_foldl_eq (manager : String → Option ThermoDevice)
    (dev_ids : List String) (acc : List CameClimateEntity) :
    dev_ids.foldl
      (fun entities dev_id =>
        match manager dev_id with
        | none => entities
        | some device => entities ++ [⟨device⟩])
      acc
    = acc ++ dev_ids.filterMap (fun i => (manager i).map CameClimateEntity.mk) := by
  induction dev_ids generalizing acc with
  | nil => simp
  | cons i rest ih =>
    cases h : manager i <;>
      simp [List.foldl_cons, h, ih, List.filterMap_cons]

/-! ## Claims -/

/-- C2: `set_hvac_mode` maps OFF to device mode off; HEAT to mode manual
with season winter; COOL to mode manual with season summer; and every
other requested mode, DRY included, to device mode auto with no season
argument. -/
theorem set_hvac_mode_mapping :
    set_hvac_mode .off = ⟨.off, none⟩
    ∧ set_hvac_mode .heat = ⟨.manual, some .winter⟩
    ∧ set_hvac_mode .cool = ⟨.manual, some .summer⟩
    ∧ ∀ m : HVACMode, m ≠ .off → m ≠ .heat → m ≠ .cool →
        set_hvac_mode m = ⟨.auto, none⟩ := by
  refine ⟨rfl, rfl, rfl, ?_⟩
  intro m h1 h2 h3
  cases m <;> simp_all [set_hvac_mode]

/-- Witness for C2: requesting DRY issues `zone_config(mode=auto)`. -/
theorem set_hvac_mode_mapping_witness :
    set_hvac_mode .dry = ⟨.auto, none⟩ :=
  set_hvac_mode_mapping.2.2.2 .dry (by decide) (by decide) (by decide)

/-- C3: with the device on, mode manual, dehumidifier sub-state not on,
and a season outside the mapped set, the final season lookup in
`hvac_mode` has no entry and the property raises (`none`) instead of
returning a mode. -/
theorem hvac_mode_unmapped_season_raises :
    (ThermoDevice.mk true .manual (.other 7) "off" 0 false).state = true
    ∧ (ThermoDevice.mk true .manual (.other 7) "off" 0 false).mode = .manual
    ∧ (ThermoDevice.mk true .manual (.other 7) "off" 0 false).dehumidifier_state
        ≠ THERMO_DEHUMIDIFIER_ON
    ∧ CAME_SEASON_TO_HA (.other 7) = none
    ∧ hvac_mode (ThermoDevice.mk true .manual (.other 7) "off" 0 false) = none := by
  refine ⟨rfl, rfl, by decide, rfl, ?_⟩
  simp [hvac_mode, CAME_MODE_TO_HA, THERMO_DEHUMIDIFIER_ON, CAME_SEASON_TO_HA]

/-- C7: `turn_on` with no brightness and no color issues the plain on
command; a supplied brightness is forwarded as
`round(value * 100 / 255)`, a supplied hue/saturation pair is forwarded
verbatim, independently, and both apply in the same call. -/
theorem turn_on_commands :
    turn_on none none = [.turnOn]
    ∧ (∀ b, turn_on (some b) none = [.setBrightness (pyRound (b * 100) 255)])
    ∧ (∀ c, turn_on none (some c) = [.setHsColor c])
    ∧ (∀ b c, turn_on (some b) (some c)
        = [.setBrightness (pyRound (b * 100) 255), .setHsColor c]) :=
  ⟨rfl, fun _ => rfl, fun _ => rfl, fun _ _ => rfl⟩

/-- C8: `set_temperature` with a supplied temperature issues exactly the
verbatim `set_target_temperature` call; with none supplied it issues no
command and the device state is unchanged. -/
theorem set_temperature_forwarding :
    (∀ t, set_temperature (some t) = [.setTargetTemperature t])
    ∧ (∀ t d, applyClimateCmds (set_temperature (some t)) d
        = { d with target_temperature := t })
    ∧ set_temperature none = []
    ∧ (∀ d, applyClimateCmds (set_temperature none) d = d) :=
  ⟨fun _ => rfl, fun _ _ => rfl, rfl, fun _ => rfl⟩

/-- C9: `hvac_modes` is always OFF, AUTO, HEAT, COOL in that order, with
DRY appended exactly when the device supports target humidity — even
though `set_hvac_mode` sends DRY to mode auto. -/
theorem hvac_modes_advertised (d : ThermoDevice) :
    hvac_modes d
      = [.off, .auto, .heat, .cool]
        ++ (if d.support_target_humidity then [.dry] else [])
    ∧ (HVACMode.dry ∈ hvac_modes d ↔ d.support_target_humidity = true)
    ∧ set_hvac_mode .dry = ⟨.auto, none⟩ := by
  cases h : d.support_target_humidity <;>
    simp [hvac_modes, h, set_hvac_mode]

/-- C1 counterexample: with the device on, vendor mode off, season
winter and the dehumidifier not on, the source's `hvac_mode` returns OFF
(the mode table maps the vendor mode `off` to OFF), while the claim's
priority chain falls through to the season mapping and yields HEAT. -/
theorem hvac_mode_claim_counterexample :
    hvac_mode (ThermoDevice.mk true .off .winter "off" 0 false) = some .off
    ∧ hvacModeClaimed (ThermoDevice.mk true .off .winter "off" 0 false) = some .heat
    ∧ hvacModeClaimed (ThermoDevice.mk true .off .winter "off" 0 false)
        ≠ hvac_mode (ThermoDevice.mk true .off .winter "off" 0 false) := by
  refine ⟨?_, ?_, ?_⟩ <;>
    simp [hvac_mode, hvacModeClaimed, CAME_MODE_TO_HA, CAME_SEASON_TO_HA,
      THERMO_DEHUMIDIFIER_ON]

/-- C1 (amended): `hvac_mode` follows the priority derivation: state off
→ OFF; else vendor mode off → OFF (the mode table also covers off);
else mode auto or jolly → AUTO; else (mode manual) dehumidifier on →
DRY; else the mapping of the season (off → OFF, winter → HEAT, summer →
COOL). -/
theorem hvac_mode_priority (d : ThermoDevice) :
    (d.state = false → hvac_mode d = some .off)
    ∧ (d.state = true → d.mode = .off → hvac_mode d = some .off)
    ∧ (d.state = true → (d.mode = .auto ∨ d.mode = .jolly) →
        hvac_mode d = some .auto)
    ∧ (d.state = true → d.mode = .manual →
        d.dehumidifier_state = THERMO_DEHUMIDIFIER_ON →
        hvac_mode d = some .dry)
    ∧ (d.state = true → d.mode = .manual →
        d.dehumidifier_state ≠ THERMO_DEHUMIDIFIER_ON →
        hvac_mode d = CAME_SEASON_TO_HA d.season
        ∧ (d.season = .off → hvac_mode d = some .off)
        ∧ (d.season = .winter → hvac_mode d = some .heat)
        ∧ (d.season = .summer → hvac_mode d = some .cool)) := by
  refine ⟨?_, ?_, ?_, ?_, ?_⟩
  · intro h; simp [hvac_mode, h]
  · intro hs hm; simp [hvac_mode, hs, hm, CAME_MODE_TO_HA]
  · rintro hs (hm | hm) <;> simp [hvac_mode, hs, hm, CAME_MODE_TO_HA]
  · intro hs hm hd; simp [hvac_mode, hs, hm, hd, CAME_MODE_TO_HA]
  · intro hs hm hd
    have hmain : hvac_mode d = CAME_SEASON_TO_HA d.season := by
      simp [hvac_mode, hs, hm, hd, CAME_MODE_TO_HA]
    refine ⟨hmain, ?_, ?_, ?_⟩ <;> intro hse <;>
      simp [hmain, hse, CAME_SEASON_TO_HA]

/-- Witness for C1: a device that is on, in manual mode, dehumidifier
off, season winter, reports HEAT. -/
theorem hvac_mode_priority_witness :
    hvac_mode (ThermoDevice.mk true .manual .winter "off" 0 false) = some .heat :=
  ((hvac_mode_priority (ThermoDevice.mk true .manual .winter "off" 0 false)).2.2.2.2
    rfl rfl (by decide)).2.2.1 rfl

/-- C5: at light-entity construction, brightness support adds BRIGHTNESS
to the supported set; color support adds HS and selects it as active
mode, otherwise BRIGHTNESS is selected; with neither capability
BRIGHTNESS is forced into the set; the supported set is never empty. -/
theorem lightEntityInit_capabilities :
    ∀ sb sc : Bool,
      (sb = true →
        ColorMode.brightness ∈ (lightEntityInit sb sc).supported_color_modes)
      ∧ (sc = true →
          ColorMode.hs ∈ (lightEntityInit sb sc).supported_color_modes
          ∧ (lightEntityInit sb sc).color_mode = some ColorMode.hs)
      ∧ (sc = false →
          (lightEntityInit sb sc).color_mode = some ColorMode.brightness)
      ∧ (sb = false → sc = false →
          ColorMode.brightness ∈ (lightEntityInit sb sc).supported_color_modes)
      ∧ (lightEntityInit sb sc).supported_color_modes ≠ ∅ := by
  decide

/-- Witness for C5: with neither capability the supported set is
non-empty and contains BRIGHTNESS. -/
theorem lightEntityInit_capabilities_witness :
    ColorMode.brightness ∈ (lightEntityInit false false).supported_color_modes
    ∧ (lightEntityInit false false).supported_color_modes ≠ ∅ :=
  ⟨(lightEntityInit_capabilities false false).2.2.2.1 rfl rfl,
    (lightEntityInit_capabilities false false).2.2.2.2⟩

/-- C10: after construction the active color mode is never `None`, is a
member of the supported set, and is HS exactly when the device supports
color, BRIGHTNESS otherwise — for every combination of the capability
flags. -/
theorem color_mode_invariant :
    ∀ sb sc : Bool,
      (lightEntityInit sb sc).color_mode ≠ none
      ∧ (∀ m, (lightEntityInit sb sc).color_mode = some m →
          m ∈ (lightEntityInit sb sc).supported_color_modes)
      ∧ (sc = true → (lightEntityInit sb sc).color_mode = some ColorMode.hs)
      ∧ (sc = false →
          (lightEntityInit sb sc).color_mode = some ColorMode.brightness) := by
  decide

/-- Witness for C10: a color-capable light's active mode is HS and lies
in its supported set. -/
theorem color_mode_invariant_witness :
    (lightEntityInit true true).color_mode = some ColorMode.hs
    ∧ ColorMode.hs ∈ (lightEntityInit true true).supported_color_modes :=
  ⟨(color_mode_invariant true true).2.2.1 rfl,
    (color_mode_invariant true true).2.1 ColorMode.hs
      ((color_mode_invariant true true).2.2.1 rfl)⟩

/-- C6: `_setup_entities` builds exactly one entity per identifier the
manager resolves, in order; an identifier resolving to `None` is skipped
and contributes nothing; the listener registers nothing for an empty
sequence and otherwise calls `async_add_entities` exactly once with the
whole batch. -/
theorem discovery_setup (manager : String → Option ThermoDevice)
    (dev_ids : List String) :
    _setup_entities manager dev_ids
      = dev_ids.filterMap (fun i => (manager i).map CameClimateEntity.mk)
    ∧ (∀ pre post i, manager i = none →
        _setup_entities manager (pre ++ i :: post)
          = _setup_entities manager (pre ++ post))
    ∧ (dev_ids ≠ [] →
        async_discover_sensor manager dev_ids
          = [_setup_entities manager dev_ids])
    ∧ (dev_ids = [] → async_discover_sensor manager dev_ids = []) := by
  refine ⟨?_, ?_, ?_, ?_⟩
  · simpa [_setup_entities] using setup_entities_foldl_eq manager dev_ids []
  · intro pre post i hi
    simp [_setup_entities, setup_entities_foldl_eq, List.filterMap_append,
      List.filterMap_cons, hi]
  · intro h
    simp [async_discover_sensor, h]
  · intro h
    simp [async_discover_sensor, h]

/-- A concrete manager for the discovery witness: resolves every
identifier except `"unknown"` to a fixed device. -/
def exampleManager : String → Option ThermoDevice := fun i =>
  if i = "unknown" then none
  else some (ThermoDevice.mk true .auto .winter "off" 0 false)

/-- Witness for C6: an identifier the manager does not resolve
contributes no entity. -/
theorem discovery_setup_witness :
    _setup_entities exampleManager (["a"] ++ "unknown" :: ["b"])
      = _setup_entities exampleManager (["a"] ++ ["b"]) :=
  (discovery_setup exampleManager []).2.1 ["a"] ["b"] "unknown" (by decide)

set_option maxRecDepth 4096 in
/-- The brightness round trip drifts by at most one step, checked for
every adapter brightness value below 256. -/
theorem pyRound_round_trip_bound :
    ∀ B < 256, ((pyRound (pyRound (B * 100) 255 * 255) 100 : ℤ) - B).natAbs ≤ 1 := by
  decide

/-- C4: setting brightness B through `turn_on` and reading the getter
back yields `round(round(B * 100 / 255) * 255 / 100)`, within 1 of B. -/
theorem brightness_round_trip (B : Nat) (hB : B < 256) (d : LightDevice)
    (hd : d.support_brightness = true) :
    brightness_getter (applyLightCmds (turn_on (some B) none) d)
      = some (pyRound (pyRound (B * 100) 255 * 255) 100)
    ∧ ((pyRound (pyRound (B * 100) 255 * 255) 100 : ℤ) - B).natAbs ≤ 1 := by
  constructor
  · simp [turn_on, applyLightCmds, applyLightCmd, brightness_getter, hd]
  · exact pyRound_round_trip_bound B hB

/-- Witness for C4: brightness 200 reads back as 199. -/
theorem brightness_round_trip_witness :
    brightness_getter (applyLightCmds (turn_on (some 200) none)
        (LightDevice.mk 0 0 (0, 0) true false))
      = some (pyRound (pyRound (200 * 100) 255 * 255) 100)
    ∧ ((pyRound (pyRound (200 * 100) 255 * 255) 100 : ℤ) - 200).natAbs ≤ 1 :=
  brightness_round_trip 200 (by decide) (LightDevice.mk 0 0 (0, 0) true false) rfl
